import Mathlib

/-!
Verification development for the ChunkSmith event-stream consumers and the
credential-rotation dispatcher.

Embedded components:
* the chat-turn stream consumer (Frontend/src/components/Chat/ChatInterface.tsx,
  `startStreaming` and its `eventSource.onmessage` / `onerror` handlers);
* the ingestion-progress consumers (Frontend/src/hooks/useWebSocket.ts and
  Frontend/src/hooks/useSSE.ts) with their reconnection logic;
* the ingestion-progress page reducer (Frontend/src/pages/ProcessingPage.tsx,
  the effect over the last received message);
* the credential-rotation dispatcher, modelled from the specification
  (no dispatcher code ships in this source tree, see the doc comments below).

JavaScript `Date.now()` is modelled as a monotone fresh-id counter: the code
uses it only to mint distinct identifiers for messages and streaming steps.
React state setters are modelled as record updates applied in program order;
a handler closure that captures a state variable captures the value the
variable had when the handler was installed (JavaScript closure semantics),
which the model records explicitly in `ChatEnv.closureCurrentImages`.
-/

namespace ChunkSmith

/-! ## Chat stream consumer (ChatInterface.tsx) -/

inductive Role where
  | user
  | assistant
  deriving DecidableEq, Repr

/-- `ChatImage` from ChatMessage.tsx: `{ filename, data }`. -/
structure ChatImage where
  filename : String
  data : String
  deriving DecidableEq, Repr

/-- The `Message` interface of ChatInterface.tsx: id, type, content, images.
Ids are minted from `Date.now()`, modelled as naturals from a fresh counter.
The optional `images?` field is modelled as a plain list (`[]` when absent:
every read site uses `msg.images || []`). -/
structure Message where
  id : Nat
  role : Role
  content : String
  images : List ChatImage
  deriving DecidableEq, Repr

inductive StepType where
  | searching
  | reading
  | writing
  | images
  deriving DecidableEq, Repr

inductive StepStatus where
  | pending
  | active
  | complete
  deriving DecidableEq, Repr

/-- `StreamingStep` from StreamingSteps.tsx. -/
structure StreamingStep where
  id : Nat
  stype : StepType
  label : String
  status : StepStatus
  details : List String
  deriving DecidableEq, Repr

/-- The chat events of the SSE stream, as dispatched by the `switch` in
`eventSource.onmessage`: `connected`, `search_start`, `search_complete`,
`images_found`, `image`, `response_start`, `content`, `complete`, `end`. -/
inductive ChatEvent where
  | connected
  | searchStart (query : String)
  | searchComplete (chunksCount : Nat) (sources : List String)
  | imagesFound (count : Nat)
  | image (filename : String) (data : String)
  | responseStart
  | content (text : String)
  | complete
  | endEv
  deriving DecidableEq, Repr

/-- The mutable state a chat stream run touches: the React state fields
(`messages`, `currentImages`, `isStreaming`, `streamingSteps`) plus the
handler-local step-id variables of `startStreaming` (`''` modelled as `none`),
whether the EventSource has been closed, and the fresh-id counter standing in
for `Date.now()`. -/
structure ChatState where
  messages : List Message
  currentImages : List ChatImage
  isStreaming : Bool
  streamingSteps : List StreamingStep
  searchStepId : Option Nat
  readStepId : Option Nat
  writeStepId : Option Nat
  imagesStepId : Option Nat
  closed : Bool
  nextId : Nat
  deriving DecidableEq, Repr

/-- The values the `onmessage` closure captured when `startStreaming`
installed it: the user message (used as fallback for `data.query`), the
streaming assistant message id (`streamingMessageIdRef.current`), and the
value the `currentImages` state variable had at that render — the `complete`
case reads this stale captured value, not the live state. -/
structure ChatEnv where
  userMessage : String
  streamingMessageId : Nat
  closureCurrentImages : List ChatImage
  deriving DecidableEq, Repr

/-- Component state before any chat activity. -/
def chatInit : ChatState :=
  { messages := [],
    currentImages := [],
    isStreaming := false,
    streamingSteps := [],
    searchStepId := none,
    readStepId := none,
    writeStepId := none,
    imagesStepId := none,
    closed := true,
    nextId := 0 }

/-- `updateStep`: map over the steps, merging the update into the step whose
id matches. -/
def updateStep (sid : Nat) (f : StreamingStep → StreamingStep)
    (steps : List StreamingStep) : List StreamingStep :=
  steps.map fun st => if st.id = sid then f st else st

/-- The `case 'content'` mapper: append the delta to the streaming message. -/
def appendContent (i : Nat) (t : String) (m : Message) : Message :=
  if m.id = i then { m with content := m.content ++ t } else m

/-- The `case 'image'` mapper: push the new image onto the streaming
message's image list. -/
def attachImage (i : Nat) (img : ChatImage) (m : Message) : Message :=
  if m.id = i then { m with images := m.images ++ [img] } else m

/-- The `case 'complete'` mapper: append a whole image list (the captured
`currentImages`) to the streaming message. -/
def attachImages (i : Nat) (imgs : List ChatImage) (m : Message) : Message :=
  if m.id = i then { m with images := m.images ++ imgs } else m

/-- `startStreaming(message)`: set `isStreaming`, clear the step list and
`currentImages`, append the user message and an empty assistant message, and
open a fresh EventSource whose `onmessage` closure captures `message`, the
assistant id, and the current `currentImages` value. -/
def startStreaming (s : ChatState) (m : String) : ChatEnv × ChatState :=
  let userId := s.nextId
  let asstId := s.nextId + 1
  let env : ChatEnv :=
    { userMessage := m,
      streamingMessageId := asstId,
      closureCurrentImages := s.currentImages }
  (env,
    { messages :=
        s.messages ++ [{ id := userId, role := .user, content := m, images := [] }]
          ++ [{ id := asstId, role := .assistant, content := "", images := [] }],
      currentImages := [],
      isStreaming := true,
      streamingSteps := [],
      searchStepId := none,
      readStepId := none,
      writeStepId := none,
      imagesStepId := none,
      closed := false,
      nextId := s.nextId + 2 })

/-- One `eventSource.onmessage` invocation (the `switch (data.type)`).
A closed EventSource delivers no events, so a closed state is left as is. -/
def handleEvent (env : ChatEnv) (s : ChatState) (e : ChatEvent) : ChatState :=
  if s.closed then s else
  match e with
  | .connected => s
  | .searchStart q =>
      let sid := s.nextId
      { s with
        searchStepId := some sid,
        nextId := sid + 1,
        streamingSteps := s.streamingSteps ++
          [{ id := sid, stype := .searching, label := "Searching the document",
             status := .active,
             details := [if q = "" then env.userMessage else q] }] }
  | .searchComplete cnt sources =>
      let upd := fun (st : StreamingStep) =>
        { st with
          status := StepStatus.complete,
          label := "Found " ++ toString cnt ++ " relevant sections" }
      let s1 :=
        match s.searchStepId with
        | some sid => { s with streamingSteps := updateStep sid upd s.streamingSteps }
        | none => s
      let rid := s1.nextId
      { s1 with
        readStepId := some rid,
        nextId := rid + 1,
        streamingSteps := s1.streamingSteps ++
          [{ id := rid, stype := .reading, label := "Reading relevant sections",
             status := .active, details := sources }] }
  | .imagesFound cnt =>
      let upd := fun (st : StreamingStep) => { st with status := StepStatus.complete }
      let s1 :=
        match s.readStepId with
        | some rid => { s with streamingSteps := updateStep rid upd s.streamingSteps }
        | none => s
      if cnt > 0 then
        let iid := s1.nextId
        { s1 with
          imagesStepId := some iid,
          nextId := iid + 1,
          streamingSteps := s1.streamingSteps ++
            [{ id := iid, stype := .images,
               label := "Found " ++ toString cnt ++ " relevant images",
               status := .complete, details := [] }] }
      else s1
  | .image f d =>
      let newImage : ChatImage := { filename := f, data := d }
      { s with
        currentImages := s.currentImages ++ [newImage],
        messages := s.messages.map (attachImage env.streamingMessageId newImage) }
  | .responseStart =>
      let upd := fun (st : StreamingStep) => { st with status := StepStatus.complete }
      let s1 :=
        match s.readStepId with
        | some rid => { s with streamingSteps := updateStep rid upd s.streamingSteps }
        | none => s
      let wid := s1.nextId
      { s1 with
        writeStepId := some wid,
        nextId := wid + 1,
        streamingSteps := s1.streamingSteps ++
          [{ id := wid, stype := .writing, label := "Writing answer",
             status := .active, details := [] }] }
  | .content t =>
      { s with messages := s.messages.map (appendContent env.streamingMessageId t) }
  | .complete =>
      let upd := fun (st : StreamingStep) =>
        { st with status := StepStatus.complete, label := "Answer complete" }
      let s1 :=
        match s.writeStepId with
        | some wid => { s with streamingSteps := updateStep wid upd s.streamingSteps }
        | none => s
      { s1 with
        messages := s1.messages.map (attachImages env.streamingMessageId env.closureCurrentImages) }
  | .endEv =>
      -- `setIsStreaming(false)`, the deferred `setStreamingSteps([])`, and
      -- `eventSource.close()`.
      { s with isStreaming := false, streamingSteps := [], closed := true }

/-- `eventSource.onerror`: drop the streaming flags and close the source. -/
def handleError (s : ChatState) : ChatState :=
  { s with isStreaming := false, streamingSteps := [], closed := true }

/-- Fold a whole event sequence through the `onmessage` handler. -/
def processEvents (env : ChatEnv) (s : ChatState) (es : List ChatEvent) : ChatState :=
  es.foldl (handleEvent env) s

/-- Run one complete chat turn: `startStreaming` followed by the events the
channel delivers. -/
def chatTurn (s : ChatState) (m : String) (es : List ChatEvent) :
    ChatEnv × ChatState :=
  let p := startStreaming s m
  (p.1, processEvents p.1 p.2 es)

/-- Look up a message by id (first match, like the render key lookup). -/
def findMsg (msgs : List Message) (i : Nat) : Option Message :=
  msgs.find? fun m => m.id = i

/-- Images of the message with the given id (`[]` when absent). -/
def msgImages (msgs : List Message) (i : Nat) : List ChatImage :=
  ((findMsg msgs i).map Message.images).getD []

/-- Text of the message with the given id (`""` when absent). -/
def msgContent (msgs : List Message) (i : Nat) : String :=
  ((findMsg msgs i).map Message.content).getD ""

/-! ## Ingestion progress consumers (useWebSocket.ts, useSSE.ts)

Each hook is a state machine driven by the browser callbacks
(`onopen` / `onmessage` / `onerror` / `onclose`).  A step returns the new
hook state together with `some delay` when the handler schedules a
reconnection attempt after `delay` milliseconds (`setTimeout(connect, delay)`),
and `none` when it does not reconnect. -/

/-- Message types of `WebSocketMessage` in useWebSocket.ts. -/
inductive WSMsgType where
  | connected
  | step
  | chunkProgress
  | complete
  | error
  | log
  deriving DecidableEq, Repr

structure WSMessage where
  mtype : WSMsgType
  deriving DecidableEq, Repr

/-- Hook state of `useWebSocket`: the `messages`, `connected` and `error`
React states plus the `reconnectAttempts` ref. -/
structure WSState where
  messages : List WSMessage
  connected : Bool
  error : Option String
  reconnectAttempts : Nat
  deriving DecidableEq, Repr

def maxReconnectAttempts : Nat := 5

/-- The delay passed to `setTimeout` before the `attempt`-th consecutive
reconnection: `2000 * reconnectAttempts.current`. -/
def wsReconnectDelay (attempt : Nat) : Nat := 2000 * attempt

def wsInit : WSState :=
  { messages := [], connected := false, error := none, reconnectAttempts := 0 }

/-- Browser callbacks that drive `useWebSocket`. -/
inductive WSInput where
  | openEv
  | msgEv (m : WSMessage)
  | errEv
  | closeEv
  deriving DecidableEq, Repr

/-- One callback invocation of the `useWebSocket` hook.  `ws.onclose`
unconditionally schedules a reconnect while `reconnectAttempts` is below
`maxReconnectAttempts`, and otherwise records the giving-up error. -/
def wsStep (s : WSState) (i : WSInput) : WSState × Option Nat :=
  match i with
  | .openEv =>
      ({ s with connected := true, error := none, reconnectAttempts := 0 }, none)
  | .msgEv m =>
      ({ s with messages := s.messages ++ [m] }, none)
  | .errEv =>
      ({ s with error := some "Connection error occurred" }, none)
  | .closeEv =>
      let s1 := { s with connected := false }
      if s1.reconnectAttempts < maxReconnectAttempts then
        let a := s1.reconnectAttempts + 1
        ({ s1 with reconnectAttempts := a }, some (wsReconnectDelay a))
      else
        ({ s1 with error := some "Maximum reconnection attempts reached" }, none)

/-- Apply `n` consecutive `onclose` callbacks, counting how many of them
schedule a reconnection attempt, and collecting the scheduled delays. -/
def wsCloseRun : WSState → Nat → WSState × Nat × List Nat
  | s, 0 => (s, 0, [])
  | s, n + 1 =>
      let p := wsStep s .closeEv
      let r := wsCloseRun p.1 n
      match p.2 with
      | some d => (r.1, r.2.1 + 1, d :: r.2.2)
      | none => (r.1, r.2.1, r.2.2)

/-- Message record of `useSSE` (`SSEMessage`); only the type tag matters to
the reconnection logic. -/
inductive SSEMsgType where
  | connected
  | progress
  | complete
  | error
  deriving DecidableEq, Repr

structure SSEHookMessage where
  mtype : SSEMsgType
  deriving DecidableEq, Repr

/-- Hook state of `useSSE`: `messages`, `connected`, `error`.  There is no
attempt counter in the source. -/
structure SSEState where
  messages : List SSEHookMessage
  connected : Bool
  error : Option String
  deriving DecidableEq, Repr

def sseInit : SSEState := { messages := [], connected := false, error := none }

/-- The constant delay passed to `setTimeout` in `eventSource.onerror`. -/
def sseReconnectDelay : Nat := 3000

/-- Browser callbacks driving `useSSE`.  `errEv` carries whether
`eventSource.readyState === EventSource.CLOSED` held when `onerror` fired. -/
inductive SSEInput where
  | openEv
  | msgEv (m : SSEHookMessage)
  | errEv (readyStateClosed : Bool)
  deriving DecidableEq, Repr

/-- One callback invocation of the `useSSE` hook.  `onerror` reconnects after
a fixed 3000 ms whenever the EventSource is not already CLOSED; there is no
bound on the number of attempts. -/
def sseStep (s : SSEState) (i : SSEInput) : SSEState × Option Nat :=
  match i with
  | .openEv => ({ s with connected := true, error := none }, none)
  | .msgEv m => ({ s with messages := s.messages ++ [m] }, none)
  | .errEv readyStateClosed =>
      let s1 := { s with connected := false }
      if readyStateClosed then
        (s1, none)
      else
        ({ s1 with error := some "Connection error occurred" }, some sseReconnectDelay)

/-- Apply `n` consecutive abnormal `onerror` callbacks (readyState not
CLOSED), counting how many schedule a resubscription. -/
def sseAbnormalRun : SSEState → Nat → SSEState × Nat
  | s, 0 => (s, 0)
  | s, n + 1 =>
      let p := sseStep s (.errEv false)
      let r := sseAbnormalRun p.1 n
      match p.2 with
      | some _ => (r.1, r.2 + 1)
      | none => r

/-! ## Ingestion progress page reducer (ProcessingPage.tsx)

The effect over `messages` reads the last received message and updates the
displayed fields through the `switch (lastMessage.type)`. -/

inductive StatusType where
  | info
  | success
  | error
  | loading
  deriving DecidableEq, Repr

/-- The `result` payload stored on completion. -/
structure ProcResult where
  docId : String
  chunksProcessed : Nat
  imagesExtracted : Nat
  deriving DecidableEq, Repr

/-- The `data` fields of an `SSEMessage` that the page effect reads.  Each is
optional in the TypeScript interface. -/
structure SSEData where
  step : Option Nat
  progress : Option Nat
  message : Option String
  result : Option ProcResult
  deriving DecidableEq, Repr

structure SSEMsg where
  mtype : SSEMsgType
  data : SSEData
  deriving DecidableEq, Repr

/-- Displayed state of ProcessingPage. -/
structure PageState where
  currentStep : Nat
  progress : Nat
  statusMessage : String
  statusType : StatusType
  isComplete : Bool
  result : Option ProcResult
  deriving DecidableEq, Repr

def pageInit : PageState :=
  { currentStep := 1,
    progress := 0,
    statusMessage := "Initializing...",
    statusType := .loading,
    isComplete := false,
    result := none }

/-- JavaScript `value || default` on an optional string: the default is used
when the field is absent or the empty string (falsy). -/
def orDefault (o : Option String) (d : String) : String :=
  match o with
  | some s => if s = "" then d else s
  | none => d

/-- The `switch (lastMessage.type)` of the ProcessingPage effect.  In the
`progress` case each field update is guarded by JavaScript truthiness:
`data.step` and `data.progress` update only when present and nonzero,
`data.message` only when present and non-empty. -/
def pageReduce (s : PageState) (m : SSEMsg) : PageState :=
  match m.mtype with
  | .connected =>
      { s with
        statusMessage := orDefault m.data.message "Connected to processing stream",
        statusType := .info }
  | .progress =>
      let s1 :=
        match m.data.step with
        | some n => if n ≠ 0 then { s with currentStep := n } else s
        | none => s
      let s2 :=
        match m.data.progress with
        | some p => if p ≠ 0 then { s1 with progress := p } else s1
        | none => s1
      let s3 :=
        match m.data.message with
        | some t => if t ≠ "" then { s2 with statusMessage := t } else s2
        | none => s2
      { s3 with statusType := .loading }
  | .complete =>
      { s with
        progress := 100,
        statusMessage := orDefault m.data.message "Processing complete!",
        statusType := .success,
        isComplete := true,
        result := m.data.result }
  | .error =>
      { s with
        statusMessage := orDefault m.data.message "An error occurred",
        statusType := .error }

/-! ## Credential Rotation Dispatcher -/

/-- Modelled from the spec: no dispatcher code ships under the source tree —
the multi-key rotation is described only in the project documentation
(README "Multi-API key load balancing", SETUP.md "rate limit rotation") and
in spec section 4.4.  Credential state: `Available` or `CoolingDown(until)`. -/
inductive SlotState where
  | available
  | coolingDown (untilTime : Nat)
  deriving DecidableEq, Repr

/-- Modelled from the spec: a `CredentialSlot` carries its state and a
`consecutiveFailures` counter (the secret material is irrelevant here). -/
structure CredentialSlot where
  state : SlotState
  consecutiveFailures : Nat
  deriving DecidableEq, Repr

/-- Modelled from the spec: the pool of N interchangeable credentials plus
the last-used index for round-robin selection. -/
structure CredPool where
  slots : List CredentialSlot
  lastUsed : Nat
  deriving DecidableEq, Repr

/-- Modelled from the spec: a CoolingDown slot "self-heals to Available once
past" its expiry; availability is re-evaluated lazily at selection time. -/
def slotAvailable (now : Nat) (c : CredentialSlot) : Bool :=
  match c.state with
  | .available => true
  | .coolingDown untilTime => untilTime ≤ now

/-- Scan a slot suffix for the first available slot, reporting its absolute
index (`base` is the index of the first listed slot). -/
def firstAvailAux : List CredentialSlot → Nat → Nat → Option Nat
  | [], _, _ => none
  | c :: rest, now, base =>
      if slotAvailable now c then some base else firstAvailAux rest now (base + 1)

/-- Modelled from the spec: "selects the next Available credential starting
after the last-used index (round robin)" — scan from `start` to the end of
the pool, then wrap to the front. -/
def nextAvailable (slots : List CredentialSlot) (now : Nat) (start : Nat) :
    Option Nat :=
  if slots.length = 0 then none
  else
    match firstAvailAux (slots.drop (start % slots.length)) now (start % slots.length) with
    | some i => some i
    | none => firstAvailAux (slots.take (start % slots.length)) now 0

/-- Modelled from the spec: "marks that credential CoolingDown(now + window)"
and bumps its `consecutiveFailures`. -/
def markCooling : List CredentialSlot → Nat → Nat → List CredentialSlot
  | [], _, _ => []
  | c :: rest, 0, t =>
      { state := SlotState.coolingDown t,
        consecutiveFailures := c.consecutiveFailures + 1 } :: rest
  | c :: rest, i + 1, t => c :: markCooling rest i t

/-- Modelled from the spec: the fixed default cool-down window used when the
provider advertises no retry-after (exact duration is configurable policy;
any positive constant exhibits the same behaviour). -/
def cooldownWindow : Nat := 60

inductive DispatchError where
  | poolExhausted
  deriving DecidableEq, Repr

/-- Modelled from the spec, dispatch loop: pick the next available
credential; on an upstream rate-limit signal mark it CoolingDown and retry
with the next available one; fail with `PoolExhausted` when no credential is
available.  `upstream k` tells whether the k-th upstream request of this call
is answered with a rate-limit signal.  Returns the call result (index of the
credential that succeeded), the number of upstream requests made, and the
updated slots.  The fuel starts at `N + 1`, which the spec's "up to N−1
further attempts within the same call" makes sufficient: each retry has
cooled one more slot. -/
def dispatchAux : Nat → List CredentialSlot → Nat → (Nat → Bool) → Nat → Nat →
    (Except DispatchError Nat) × Nat × List CredentialSlot
  | 0, slots, _, _, _, count => (.error .poolExhausted, count, slots)
  | fuel + 1, slots, now, upstream, cursor, count =>
      match nextAvailable slots now cursor with
      | none => (.error .poolExhausted, count, slots)
      | some i =>
          if upstream count then
            dispatchAux fuel (markCooling slots i (now + cooldownWindow)) now
              upstream (i + 1) (count + 1)
          else
            (.ok i, count + 1, slots)

/-- Modelled from the spec: `dispatch(request)` — one dispatcher call.
Selection starts after the last-used index; on success the last-used index
moves to the credential that served the call.  The caller surfaces a
`PoolExhausted` failure as a turn-level/job-level error with no automatic
higher-level retry, so the result below is final. -/
def dispatch (p : CredPool) (now : Nat) (upstream : Nat → Bool) :
    (Except DispatchError Nat) × Nat × CredPool :=
  match dispatchAux (p.slots.length + 1) p.slots now upstream
      ((p.lastUsed + 1) % p.slots.length) 0 with
  | (.ok i, count, slots) => (.ok i, count, { slots := slots, lastUsed := i })
  | (.error e, count, slots) => (.error e, count, { slots := slots, lastUsed := p.lastUsed })

/-- A credential that has never failed and is available. -/
def freshSlot : CredentialSlot :=
  { state := SlotState.available, consecutiveFailures := 0 }

/-- A fresh pool of `n` available credentials; the initial last-used index
makes round-robin start at slot 0. -/
def freshPool (n : Nat) : CredPool :=
  { slots := List.replicate n freshSlot, lastUsed := n - 1 }

/-- A slot as it looks right after being rate-limited at time `now`. -/
def cooledSlot (now : Nat) : CredentialSlot :=
  { state := SlotState.coolingDown (now + cooldownWindow), consecutiveFailures := 1 }

/-! ## Concrete scenarios used by counterexamples and witnesses -/

/-- In-order concatenation of the texts carried by ContentDelta events. -/
def concatTexts : List String → String
  | [] => ""
  | t :: ts => t ++ concatTexts ts

/-- A chat turn delivered up to and including `Complete`, with nothing after
it: the channel is still open. -/
def ceEvents : List ChatEvent :=
  [.searchStart "q", .searchComplete 1 ["s"], .responseStart, .content "a", .complete]

def ceTurn : ChatEnv × ChatState := chatTurn chatInit "q" ceEvents

/-- First chat turn of the two-turn scenario: one image, then a complete
answer. -/
def demoEvents1 : List ChatEvent :=
  [.searchStart "q1", .searchComplete 1 ["s1"], .image "img1.png" "d1",
   .imagesFound 1, .responseStart, .content "a", .complete, .endEv]

def turn1 : ChatEnv × ChatState := chatTurn chatInit "q1" demoEvents1

/-- Second chat turn, sent after the first one finished (history was not
cleared in between). -/
def demoEvents2 : List ChatEvent :=
  [.searchStart "q2", .searchComplete 1 ["s2"], .image "img2.png" "d2",
   .imagesFound 1, .responseStart, .content "b", .complete, .endEv]

def turn2 : ChatEnv × ChatState := chatTurn turn1.2 "q2" demoEvents2

/-- WebSocket consumer state after a successful open and a received
`complete` (terminal) message. -/
def wsAfterComplete : WSState :=
  (wsStep (wsStep wsInit .openEv).1 (.msgEv { mtype := .complete })).1

/-- SSE consumer state after a received `complete` (terminal) message. -/
def sseAfterComplete : SSEState :=
  (sseStep sseInit (.msgEv { mtype := .complete })).1

/-! ## Helper lemmas -/

theorem handleEvent_closed (env : ChatEnv) (s : ChatState) (e : ChatEvent)
    (h : s.closed = true) : handleEvent env s e = s := by
  simp [handleEvent, h]

theorem processEvents_closed (env : ChatEnv) (s : ChatState) (es : List ChatEvent)
    (h : s.closed = true) : processEvents env s es = s := by
  induction es with
  | nil => rfl
  | cons e es ih =>
      show (es.foldl (handleEvent env) (handleEvent env s e)) = s
      rw [handleEvent_closed env s e h]
      exact ih

theorem appendContent_id (i : Nat) (t : String) (m : Message) :
    (appendContent i t m).id = m.id := by
  unfold appendContent
  split <;> rfl

theorem attachImage_id (i : Nat) (img : ChatImage) (m : Message) :
    (attachImage i img m).id = m.id := by
  unfold attachImage
  split <;> rfl

theorem attachImages_id (i : Nat) (imgs : List ChatImage) (m : Message) :
    (attachImages i imgs m).id = m.id := by
  unfold attachImages
  split <;> rfl

theorem findMsg_map (f : Message → Message) (hf : ∀ m, (f m).id = m.id)
    (msgs : List Message) (i : Nat) :
    findMsg (msgs.map f) i = (findMsg msgs i).map f := by
  unfold findMsg
  rw [List.find?_map]
  have hp : (fun m => decide (m.id = i)) ∘ f = fun m => decide (m.id = i) := by
    funext m
    simp [hf]
  rw [hp]

theorem findMsg_some_id (msgs : List Message) (i : Nat) (m : Message)
    (h : findMsg msgs i = some m) : m.id = i := by
  have := List.find?_some h
  simpa using this

/-! ## C1 -/

/-- C1 counterexample: after the turn of `ceEvents` has observed `Complete`
(channel still open), an `image` event is not ignored — it is appended to the
assistant message, whose image list changes from `[]` to the new image. -/
theorem c1_counterexample :
    msgImages ceTurn.2.messages ceTurn.1.streamingMessageId = [] ∧
    msgImages (handleEvent ceTurn.1 ceTurn.2 (.image "late.png" "x")).messages
        ceTurn.1.streamingMessageId =
      [{ filename := "late.png", data := "x" }] := by
  constructor <;> rfl

/-- C1 (amended): the consumer has no post-Complete guard.  While the channel
is open, an `Image` event — whether observed before or after `Complete` — is
appended both to `currentImages` and to the streaming assistant message; only
once `End` has closed the channel are further events (images included) left
unprocessed. -/
theorem c1_image_after_complete_processed (env : ChatEnv) :
    (∀ (s : ChatState) (f d : String), s.closed = false →
      (handleEvent env s (.image f d)).currentImages =
        s.currentImages ++ [{ filename := f, data := d }] ∧
      (handleEvent env s (.image f d)).messages =
        s.messages.map (attachImage env.streamingMessageId { filename := f, data := d })) ∧
    (∀ (s : ChatState) (e : ChatEvent), s.closed = true → handleEvent env s e = s) := by
  constructor
  · intro s f d h
    constructor <;> simp [handleEvent, h]
  · intro s e h
    exact handleEvent_closed env s e h

/-- C1 amended-theorem witness: instantiated at the post-Complete state of
the `ceEvents` turn. -/
theorem c1_witness :
    (handleEvent ceTurn.1 ceTurn.2 (.image "late.png" "x")).currentImages =
      ceTurn.2.currentImages ++ [{ filename := "late.png", data := "x" }] :=
  ((c1_image_after_complete_processed ceTurn.1).1 ceTurn.2 "late.png" "x" rfl).1

/-! ## C6 -/

/-- C6 counterexample: after `Complete` has been observed on the `ceEvents`
turn, a late `content` event still mutates the assistant turn text — it
changes from "a" to "ax". -/
theorem c6_counterexample :
    msgContent ceTurn.2.messages ceTurn.1.streamingMessageId = "a" ∧
    msgContent (handleEvent ceTurn.1 ceTurn.2 (.content "x")).messages
        ceTurn.1.streamingMessageId = "ax" := by
  constructor <;> rfl

/-- C6 (amended): the turn text is not frozen at `Complete` — any
`ContentDelta` received while the channel is open (before or after
`Complete`) is appended to the streaming message.  The text only becomes
immutable once `End` (or a transport error) closes the channel: every event
processed in a closed state leaves all state, the text included, unchanged. -/
theorem c6_text_mutable_until_end (env : ChatEnv) :
    (∀ (s : ChatState) (t : String), s.closed = false →
      (handleEvent env s (.content t)).messages =
        s.messages.map (appendContent env.streamingMessageId t)) ∧
    (∀ (s : ChatState), (handleEvent env s .endEv).closed = true) ∧
    (∀ (s : ChatState), (handleError s).closed = true) ∧
    (∀ (s : ChatState) (e : ChatEvent), s.closed = true → handleEvent env s e = s) := by
  refine ⟨?_, ?_, ?_, ?_⟩
  · intro s t h
    simp [handleEvent, h]
  · intro s
    by_cases h : s.closed
    · rw [handleEvent_closed env s .endEv h]
      exact h
    · simp [handleEvent, eq_false_of_ne_true h]
  · intro s
    rfl
  · intro s e h
    exact handleEvent_closed env s e h

/-- C6 amended-theorem witness: a late delta is applied at the open
post-Complete state, and the closed post-End state ignores a late delta. -/
theorem c6_witness :
    (handleEvent ceTurn.1 ceTurn.2 (.content "x")).messages =
      ceTurn.2.messages.map (appendContent ceTurn.1.streamingMessageId "x") ∧
    handleEvent turn1.1 turn1.2 (.content "x") = turn1.2 :=
  ⟨(c6_text_mutable_until_end ceTurn.1).1 ceTurn.2 "x" rfl,
   (c6_text_mutable_until_end turn1.1).2.2.2 turn1.2 (.content "x") rfl⟩

/-! ## C7 -/

/-- C7: a transport error mid-turn (`eventSource.onerror`) mutates only the
streaming-status fields: it resets `isStreaming` and the step list and closes
the channel, while the message list — the already-streamed partial text and
already-delivered images — and `currentImages` are left untouched, and no
`finalized` marking exists to add. -/
theorem c7_error_preserves_partial_results (s : ChatState) :
    (handleError s).messages = s.messages ∧
    (handleError s).currentImages = s.currentImages ∧
    (handleError s).isStreaming = false ∧
    (handleError s).streamingSteps = [] ∧
    (handleError s).closed = true := by
  exact ⟨rfl, rfl, rfl, rfl, rfl⟩

/-! ## C10 -/

/-- C10: in the `progress` branch of the ProcessingPage reducer, a field is
updated only by a truthy value: `data.step = 0` (or absent) leaves the
displayed step unchanged, `data.progress = 0` (or absent) leaves the percent
unchanged, an empty (or absent) `data.message` leaves the status message
unchanged; conversely nonzero/non-empty values do update the fields. -/
theorem c10_progress_truthy_guards (s : PageState) (d : SSEData) :
    ((d.step = some 0 ∨ d.step = none) →
      (pageReduce s ⟨.progress, d⟩).currentStep = s.currentStep) ∧
    ((d.progress = some 0 ∨ d.progress = none) →
      (pageReduce s ⟨.progress, d⟩).progress = s.progress) ∧
    ((d.message = some "" ∨ d.message = none) →
      (pageReduce s ⟨.progress, d⟩).statusMessage = s.statusMessage) ∧
    (∀ n, d.step = some n → n ≠ 0 → (pageReduce s ⟨.progress, d⟩).currentStep = n) ∧
    (∀ p, d.progress = some p → p ≠ 0 → (pageReduce s ⟨.progress, d⟩).progress = p) ∧
    (∀ t, d.message = some t → t ≠ "" → (pageReduce s ⟨.progress, d⟩).statusMessage = t) := by
  obtain ⟨st, pr, msg, res⟩ := d
  refine ⟨?_, ?_, ?_, ?_, ?_, ?_⟩ <;>
    cases st <;> cases pr <;> cases msg <;> intros <;>
    simp only [pageReduce] <;> (try split_ifs) <;>
    first
    | rfl
    | simp_all

/-! ## C5 -/

theorem handleEvent_content (env : ChatEnv) (s : ChatState) (t : String)
    (hc : s.closed = false) :
    handleEvent env s (.content t) =
      { s with messages := s.messages.map (appendContent env.streamingMessageId t) } := by
  simp [handleEvent, hc]

theorem findMsg_after_content (env : ChatEnv) (s : ChatState) (t : String)
    (msg : Message) (hc : s.closed = false)
    (hf : findMsg s.messages env.streamingMessageId = some msg) :
    findMsg (handleEvent env s (.content t)).messages env.streamingMessageId =
      some { msg with content := msg.content ++ t } := by
  rw [handleEvent_content env s t hc]
  show findMsg (s.messages.map (appendContent env.streamingMessageId t))
      env.streamingMessageId = _
  rw [findMsg_map _ (appendContent_id env.streamingMessageId t), hf]
  have hid : msg.id = env.streamingMessageId := findMsg_some_id _ _ _ hf
  simp [appendContent, hid]

theorem processContent_find (env : ChatEnv) (ts : List String) :
    ∀ (s : ChatState) (msg : Message), s.closed = false →
      findMsg s.messages env.streamingMessageId = some msg →
      findMsg (processEvents env s (ts.map ChatEvent.content)).messages
          env.streamingMessageId =
        some { msg with content := msg.content ++ concatTexts ts } := by
  induction ts with
  | nil =>
      intro s msg hc hf
      show findMsg s.messages env.streamingMessageId = _
      rw [hf]
      simp [concatTexts, String.append_empty]
  | cons t ts ih =>
      intro s msg hc hf
      have hstep := handleEvent_content env s t hc
      have hclosed : (handleEvent env s (.content t)).closed = false := by
        rw [hstep]
        exact hc
      have hfind := findMsg_after_content env s t msg hc hf
      show findMsg (processEvents env (handleEvent env s (.content t))
          (ts.map ChatEvent.content)).messages env.streamingMessageId = _
      rw [ih (handleEvent env s (.content t)) _ hclosed hfind]
      simp [concatTexts, String.append_assoc]

theorem startStreaming_closed (s0 : ChatState) (m : String) :
    (startStreaming s0 m).2.closed = false := rfl

theorem startStreaming_smid (s0 : ChatState) (m : String) :
    (startStreaming s0 m).1.streamingMessageId = s0.nextId + 1 := rfl

theorem startStreaming_find (s0 : ChatState) (m : String)
    (hwf : ∀ msg ∈ s0.messages, msg.id < s0.nextId) :
    findMsg (startStreaming s0 m).2.messages (startStreaming s0 m).1.streamingMessageId =
      some { id := s0.nextId + 1, role := .assistant, content := "", images := [] } := by
  show findMsg
      (s0.messages ++ [{ id := s0.nextId, role := .user, content := m, images := [] }]
        ++ [{ id := s0.nextId + 1, role := .assistant, content := "", images := [] }])
      (s0.nextId + 1) = _
  unfold findMsg
  rw [List.find?_append, List.find?_append]
  have h1 : s0.messages.find? (fun msg => msg.id = s0.nextId + 1) = none := by
    rw [List.find?_eq_none]
    intro x hx
    have := hwf x hx
    simp
    omega
  rw [h1]
  simp

/-- C5: for every chat turn, processing the stream's ContentDelta events with
texts `t1, …, tk` leaves the assistant turn's text equal to their in-order
concatenation: the streaming assistant message, created empty by
`startStreaming`, accumulates exactly `t1 ++ t2 ++ … ++ tk`. -/
theorem c5_content_deltas_concatenate (s0 : ChatState) (m : String) (ts : List String)
    (hwf : ∀ msg ∈ s0.messages, msg.id < s0.nextId) :
    findMsg (processEvents (startStreaming s0 m).1 (startStreaming s0 m).2
        (ts.map ChatEvent.content)).messages
      (startStreaming s0 m).1.streamingMessageId =
      some { id := (startStreaming s0 m).1.streamingMessageId, role := .assistant,
             content := concatTexts ts, images := [] } := by
  have hf := startStreaming_find s0 m hwf
  have h2 := processContent_find (startStreaming s0 m).1 ts (startStreaming s0 m).2
    { id := s0.nextId + 1, role := .assistant, content := "", images := [] }
    (startStreaming_closed s0 m) hf
  rw [startStreaming_smid] at h2 ⊢
  rw [h2]
  simp [String.empty_append]

/-- C5 witness: a fresh chat with deltas "a" then "b" ends the turn with
text "ab". -/
theorem c5_witness :
    findMsg (processEvents (startStreaming chatInit "q").1 (startStreaming chatInit "q").2
        (["a", "b"].map ChatEvent.content)).messages
      (startStreaming chatInit "q").1.streamingMessageId =
      some { id := (startStreaming chatInit "q").1.streamingMessageId, role := .assistant,
             content := concatTexts ["a", "b"], images := [] } :=
  c5_content_deltas_concatenate chatInit "q" ["a", "b"] (by simp [chatInit])

/-! ## C4 -/

/-- C4 is violated by the code (a stale-closure bug): each `image` event is
appended to the assistant message immediately, and at `complete` the handler
appends the `currentImages` value captured when the stream started — for any
turn after the first, the previous turn's images.  Evaluating the two-turn
scenario: turn 1 delivers img1 and finishes with exactly [img1]; turn 2
delivers only img2, yet its finalized assistant message carries
[img2, img1]. -/
theorem c4_second_turn_gets_previous_turn_images :
    msgImages turn1.2.messages turn1.1.streamingMessageId =
      [{ filename := "img1.png", data := "d1" }] ∧
    turn2.1.closureCurrentImages = [{ filename := "img1.png", data := "d1" }] ∧
    msgImages turn2.2.messages turn2.1.streamingMessageId =
      [{ filename := "img2.png", data := "d2" }, { filename := "img1.png", data := "d1" }] ∧
    msgContent turn2.2.messages turn2.1.streamingMessageId = "b" := by
  exact ⟨rfl, rfl, rfl, rfl⟩

/-! ## C2 -/

/-- C2 counterexample: the SSE consumer has no attempt bound — after six
consecutive abnormal failures it has scheduled six resubscriptions, more
than the claimed maximum of five. -/
theorem c2_counterexample :
    (sseAbnormalRun sseInit 6).2 = 6 ∧ ¬((sseAbnormalRun sseInit 6).2 ≤ 5) := by
  decide

/-- C2 (amended): only the WebSocket consumer bounds resubscription: a close
while the attempt counter is below 5 schedules a reconnect and increments the
counter, a close at counter 5 schedules nothing and surfaces the persistent
"Maximum reconnection attempts reached" error; `n` consecutive closes from a
fresh counter schedule `min n 5` reconnects.  The SSE consumer schedules a
resubscription on every abnormal error, without any bound. -/
theorem c2_ws_bounded_sse_unbounded :
    (∀ s : WSState, maxReconnectAttempts ≤ s.reconnectAttempts →
      wsStep s .closeEv =
        ({ s with connected := false, error := some "Maximum reconnection attempts reached" },
          none)) ∧
    (∀ s : WSState, s.reconnectAttempts < maxReconnectAttempts →
      wsStep s .closeEv =
        ({ s with connected := false, reconnectAttempts := s.reconnectAttempts + 1 },
          some (wsReconnectDelay (s.reconnectAttempts + 1)))) ∧
    (∀ n : Nat, (wsCloseRun wsInit n).2.1 = min n maxReconnectAttempts) ∧
    (∀ s : SSEState, (sseStep s (.errEv false)).2 = some sseReconnectDelay) := by
  refine ⟨?_, ?_, ?_, ?_⟩
  · intro s h
    simp [wsStep, Nat.not_lt.mpr h]
  · intro s h
    simp [wsStep, h]
  · have key : ∀ (n : Nat) (s : WSState),
        (wsCloseRun s n).2.1 = min n (maxReconnectAttempts - s.reconnectAttempts) := by
      intro n
      induction n with
      | zero => intro s; simp [wsCloseRun]
      | succ n ih =>
          intro s
          by_cases h : s.reconnectAttempts < maxReconnectAttempts
          · simp only [wsCloseRun, wsStep, h, if_true]
            rw [ih]
            simp only [maxReconnectAttempts] at *
            omega
          · simp only [wsCloseRun, wsStep, h, if_false]
            rw [ih]
            simp only [maxReconnectAttempts] at *
            omega
    intro n
    rw [key n wsInit]
    rfl
  · intro s
    simp [sseStep]

/-- C2 amended-theorem witness: at attempt counter 5 the WebSocket consumer
stops (no scheduled reconnect, persistent error); the SSE consumer still
schedules a reconnect from any state. -/
theorem c2_witness :
    wsStep { messages := [], connected := false, error := none, reconnectAttempts := 5 }
        .closeEv =
      ({ messages := [], connected := false,
         error := some "Maximum reconnection attempts reached", reconnectAttempts := 5 },
        none) ∧
    (sseStep sseInit (.errEv false)).2 = some sseReconnectDelay :=
  ⟨c2_ws_bounded_sse_unbounded.1
      { messages := [], connected := false, error := none, reconnectAttempts := 5 }
      (by decide),
    c2_ws_bounded_sse_unbounded.2.2.2 sseInit⟩

/-! ## C8 -/

/-- C8 counterexample: a terminal `complete` message has been observed on
both consumers, yet a subsequent closure still schedules a reconnection —
the WebSocket consumer after 2000 ms, the SSE consumer after 3000 ms. -/
theorem c8_counterexample :
    (wsStep wsAfterComplete .closeEv).2 = some 2000 ∧
    (sseStep sseAfterComplete (.errEv false)).2 = some 3000 := by
  constructor <;> rfl

/-- C8 (amended): the reconnection decision never consults the received
messages, so observing a terminal event does not make a later closure
graceful: the WebSocket consumer reconnects on any close while its attempt
counter is below 5 (even right after `complete`), and the SSE consumer skips
reconnection exactly when the EventSource readyState is already CLOSED,
regardless of the messages observed. -/
theorem c8_reconnect_ignores_terminal :
    (∀ (s : WSState) (ms : List WSMessage),
      (wsStep { s with messages := ms } .closeEv).2 = (wsStep s .closeEv).2) ∧
    (∀ s : WSState, s.reconnectAttempts < maxReconnectAttempts →
      (wsStep s .closeEv).2 = some (wsReconnectDelay (s.reconnectAttempts + 1))) ∧
    (∀ (s : SSEState) (ms : List SSEHookMessage) (b : Bool),
      (sseStep { s with messages := ms } (.errEv b)).2 = (sseStep s (.errEv b)).2) ∧
    (∀ s : SSEState, (sseStep s (.errEv true)).2 = none) := by
  refine ⟨?_, ?_, ?_, ?_⟩
  · intro s ms
    by_cases h : s.reconnectAttempts < maxReconnectAttempts <;> simp [wsStep, h]
  · intro s h
    simp [wsStep, h]
  · intro s ms b
    cases b <;> simp [sseStep]
  · intro s
    simp [sseStep]

/-- C8 amended-theorem witness: instantiated right after the terminal
message — the reconnect is scheduled anyway. -/
theorem c8_witness :
    (wsStep wsAfterComplete .closeEv).2 =
      some (wsReconnectDelay (wsAfterComplete.reconnectAttempts + 1)) :=
  c8_reconnect_ignores_terminal.2.1 wsAfterComplete (by decide)

/-! ## C9 -/

/-- C9 counterexample: the delays scheduled by three consecutive closes are
2000, 4000, 6000 ms — an arithmetic (linear) progression, not a geometric
one: exponential growth would require `d2² = d1·d3`, but
`4000² = 16000000 ≠ 12000000 = 2000·6000`. -/
theorem c9_counterexample :
    (wsCloseRun wsInit 3).2.2 =
      [wsReconnectDelay 1, wsReconnectDelay 2, wsReconnectDelay 3] ∧
    wsReconnectDelay 1 = 2000 ∧ wsReconnectDelay 2 = 4000 ∧ wsReconnectDelay 3 = 6000 ∧
    ¬(wsReconnectDelay 2 * wsReconnectDelay 2 =
        wsReconnectDelay 1 * wsReconnectDelay 3) := by
  refine ⟨rfl, rfl, rfl, rfl, by decide⟩

/-- C9 (amended): the WebSocket reconnect delay grows linearly — the k-th
consecutive attempt waits `2000·k` ms, each attempt adding a constant
2000 ms — and the SSE reconnect delay is the constant 3000 ms; neither
schedule is exponential. -/
theorem c9_backoff_linear_and_constant :
    (∀ k : Nat, wsReconnectDelay k = 2000 * k) ∧
    (∀ k : Nat, wsReconnectDelay (k + 1) = wsReconnectDelay k + 2000) ∧
    (∀ s : WSState, s.reconnectAttempts < maxReconnectAttempts →
      (wsStep s .closeEv).2 = some (wsReconnectDelay (s.reconnectAttempts + 1))) ∧
    (∀ s : SSEState, (sseStep s (.errEv false)).2 = some sseReconnectDelay) := by
  refine ⟨fun k => rfl, ?_, ?_, ?_⟩
  · intro k
    simp [wsReconnectDelay]
    ring
  · intro s h
    simp [wsStep, h]
  · intro s
    simp [sseStep]

/-- C9 amended-theorem witness: the second reconnect waits 2000 ms more than
the first, and a fresh close schedules the linear first delay. -/
theorem c9_witness :
    wsReconnectDelay 2 = wsReconnectDelay 1 + 2000 ∧
    (wsStep wsInit .closeEv).2 = some (wsReconnectDelay 1) :=
  ⟨c9_backoff_linear_and_constant.2.1 1,
    c9_backoff_linear_and_constant.2.2.1 wsInit (by decide)⟩

/-! ## C3 -/

theorem firstAvailAux_unavail (c : CredentialSlot) (now : Nat)
    (h : slotAvailable now c = false) :
    ∀ (k base : Nat), firstAvailAux (List.replicate k c) now base = none := by
  intro k
  induction k with
  | zero => intro base; rfl
  | succ k ih =>
      intro base
      rw [List.replicate_succ]
      show (if slotAvailable now c then some base else
        firstAvailAux (List.replicate k c) now (base + 1)) = none
      rw [h]
      rw [if_neg (by decide : ¬(false = true))]
      exact ih (base + 1)

theorem drop_replicate_append (a : CredentialSlot) (l : List CredentialSlot) :
    ∀ k, (List.replicate k a ++ l).drop k = l := by
  intro k
  induction k with
  | zero => rfl
  | succ k ih => rw [List.replicate_succ]; exact ih

theorem drop_rep (a : CredentialSlot) :
    ∀ (m n : Nat), (List.replicate n a).drop m = List.replicate (n - m) a := by
  intro m
  induction m with
  | zero => intro n; rfl
  | succ m ih =>
      intro n
      cases n with
      | zero => simp
      | succ n =>
          rw [List.replicate_succ]
          show (List.replicate n a).drop m = _
          rw [ih n, Nat.succ_sub_succ]

theorem take_rep (a : CredentialSlot) :
    ∀ (m n : Nat), (List.replicate n a).take m = List.replicate (min m n) a := by
  intro m
  induction m with
  | zero => intro n; simp
  | succ m ih =>
      intro n
      cases n with
      | zero => simp
      | succ n =>
          rw [List.replicate_succ]
          show a :: (List.replicate n a).take m = _
          rw [ih n, Nat.succ_min_succ, List.replicate_succ]

theorem slotAvailable_cooled (now : Nat) (h : now < cooldownWindow) :
    slotAvailable now (cooledSlot 0) = false := by
  show decide (0 + cooldownWindow ≤ now) = false
  rw [decide_eq_false_iff_not]
  omega

theorem nextAvailable_all_cooled (n start now : Nat) (h : now < cooldownWindow) :
    nextAvailable (List.replicate n (cooledSlot 0)) now start = none := by
  have hav := slotAvailable_cooled now h
  unfold nextAvailable
  rw [List.length_replicate]
  by_cases hn : n = 0
  · subst hn
    rfl
  · rw [if_neg hn]
    rw [drop_rep, take_rep]
    rw [firstAvailAux_unavail _ _ hav]
    rw [firstAvailAux_unavail _ _ hav]

theorem nextAvailable_inv (k j : Nat) (hj : 0 < j) :
    nextAvailable (List.replicate k (cooledSlot 0) ++ List.replicate j freshSlot) 0 k =
      some k := by
  have hlen : (List.replicate k (cooledSlot 0) ++ List.replicate j freshSlot).length =
      k + j := by
    simp
  unfold nextAvailable
  rw [hlen]
  rw [if_neg (by omega)]
  rw [Nat.mod_eq_of_lt (show k < k + j by omega)]
  rw [drop_replicate_append]
  obtain ⟨i, rfl⟩ : ∃ i, j = i + 1 := ⟨j - 1, by omega⟩
  rw [List.replicate_succ]
  have hfa : firstAvailAux (freshSlot :: List.replicate i freshSlot) 0 k = some k := rfl
  rw [hfa]

theorem markCooling_at (pre : List CredentialSlot) (c : CredentialSlot)
    (l : List CredentialSlot) (t : Nat) :
    markCooling (pre ++ c :: l) pre.length t =
      pre ++ { state := SlotState.coolingDown t,
               consecutiveFailures := c.consecutiveFailures + 1 } :: l := by
  induction pre with
  | nil => rfl
  | cons p pre ih =>
      show p :: markCooling (pre ++ c :: l) pre.length t = _
      rw [ih]
      rfl

theorem markCooling_inv (k j : Nat) :
    markCooling (List.replicate k (cooledSlot 0) ++ List.replicate (j + 1) freshSlot) k
        (0 + cooldownWindow) =
      List.replicate (k + 1) (cooledSlot 0) ++ List.replicate j freshSlot := by
  rw [List.replicate_succ]
  have hm := markCooling_at (List.replicate k (cooledSlot 0)) freshSlot
    (List.replicate j freshSlot) (0 + cooldownWindow)
  rw [List.length_replicate] at hm
  rw [hm]
  have hc : ({ state := SlotState.coolingDown (0 + cooldownWindow), consecutiveFailures := freshSlot.consecutiveFailures + 1 } : CredentialSlot) = cooledSlot 0 := rfl
  rw [hc]
  rw [List.replicate_succ' k (cooledSlot 0)]
  simp

theorem dispatchAux_exhausts (j : Nat) :
    ∀ (k count : Nat),
      dispatchAux (j + 1)
          (List.replicate k (cooledSlot 0) ++ List.replicate j freshSlot) 0
          (fun _ => true) k count =
        (.error .poolExhausted, count + j, List.replicate (k + j) (cooledSlot 0)) := by
  induction j with
  | zero =>
      intro k count
      show (match nextAvailable (List.replicate k (cooledSlot 0) ++ []) 0 k with
        | none => ((Except.error DispatchError.poolExhausted : Except DispatchError Nat),
            count, List.replicate k (cooledSlot 0) ++ ([] : List CredentialSlot))
        | some i =>
            if (fun (_ : Nat) => true) count then
              dispatchAux 0 (markCooling (List.replicate k (cooledSlot 0) ++ []) i
                (0 + cooldownWindow)) 0 (fun _ => true) (i + 1) (count + 1)
            else ((.ok i : Except DispatchError Nat), count + 1,
              List.replicate k (cooledSlot 0) ++ ([] : List CredentialSlot))) = _
      rw [List.append_nil]
      rw [nextAvailable_all_cooled k k 0 (by decide)]
      rfl
  | succ j ih =>
      intro k count
      have hna := nextAvailable_inv k (j + 1) (Nat.succ_pos j)
      have hmark := markCooling_inv k j
      show (match nextAvailable
          (List.replicate k (cooledSlot 0) ++ List.replicate (j + 1) freshSlot) 0 k with
        | none => ((Except.error DispatchError.poolExhausted : Except DispatchError Nat),
            count, List.replicate k (cooledSlot 0) ++ List.replicate (j + 1) freshSlot)
        | some i =>
            if (fun (_ : Nat) => true) count then
              dispatchAux (j + 1) (markCooling
                (List.replicate k (cooledSlot 0) ++ List.replicate (j + 1) freshSlot) i
                (0 + cooldownWindow)) 0 (fun _ => true) (i + 1) (count + 1)
            else ((.ok i : Except DispatchError Nat), count + 1,
              List.replicate k (cooledSlot 0) ++ List.replicate (j + 1) freshSlot)) = _
      rw [hna]
      show dispatchAux (j + 1) (markCooling
          (List.replicate k (cooledSlot 0) ++ List.replicate (j + 1) freshSlot) k
          (0 + cooldownWindow)) 0 (fun _ => true) (k + 1) (count + 1) = _
      rw [hmark]
      rw [ih (k + 1) (count + 1)]
      have h1 : count + 1 + j = count + (j + 1) := by omega
      have h2 : k + 1 + j = k + (j + 1) := by omega
      rw [h1, h2]

/-- C3 counterexample: with a pool of N = 3 fresh credentials and an
upstream that rate-limits every request, the failing dispatch call receives
exactly N = 3 rate-limit signals — not N + 1 = 4: once the N-th signal has
cooled the last credential no further upstream request is made, so no call
ever encounters an (N+1)-th rate-limit signal. -/
theorem c3_counterexample :
    (dispatch (freshPool 3) 0 (fun _ => true)).1 = .error .poolExhausted ∧
    (dispatch (freshPool 3) 0 (fun _ => true)).2.1 = 3 ∧
    ¬((dispatch (freshPool 3) 0 (fun _ => true)).2.1 = 3 + 1) := by
  refine ⟨rfl, rfl, by decide⟩

/-- C3 (amended, spec-modelled): given N credentials all Available and an
upstream that answers every request with a rate-limit signal, the first
`dispatch` call makes exactly N upstream requests — one per credential,
marking each CoolingDown — and fails with `PoolExhausted`; a further
`dispatch` call before any cool-down expiry fails with `PoolExhausted`
after zero upstream requests.  `dispatch` returns the error to the caller;
no higher-level retry exists in the model. -/
theorem c3_pool_exhaustion (n now : Nat) (h : now < cooldownWindow) :
    dispatch (freshPool n) 0 (fun _ => true) =
      (.error .poolExhausted, n,
        { slots := List.replicate n (cooledSlot 0), lastUsed := n - 1 }) ∧
    (dispatch { slots := List.replicate n (cooledSlot 0), lastUsed := n - 1 } now
        (fun _ => true)).1 = .error .poolExhausted ∧
    (dispatch { slots := List.replicate n (cooledSlot 0), lastUsed := n - 1 } now
        (fun _ => true)).2.1 = 0 := by
  have hfirst : dispatch (freshPool n) 0 (fun _ => true) =
      (.error .poolExhausted, n,
        { slots := List.replicate n (cooledSlot 0), lastUsed := n - 1 }) := by
    cases n with
    | zero => rfl
    | succ j =>
        have haux := dispatchAux_exhausts (j + 1) 0 0
        rw [List.replicate_zero, List.nil_append] at haux
        show (match dispatchAux ((List.replicate (j + 1) freshSlot).length + 1)
            (List.replicate (j + 1) freshSlot) 0 (fun _ => true)
            (((j + 1 - 1) + 1) % (List.replicate (j + 1) freshSlot).length) 0 with
          | (.ok i, count, slots) =>
              ((.ok i : Except DispatchError Nat), count,
                ({ slots := slots, lastUsed := i } : CredPool))
          | (.error e, count, slots) =>
              ((.error e : Except DispatchError Nat), count,
                ({ slots := slots, lastUsed := j + 1 - 1 } : CredPool))) = _
        rw [List.length_replicate]
        have hcur : ((j + 1 - 1) + 1) % (j + 1) = 0 := by
          have : (j + 1 - 1) + 1 = j + 1 := by omega
          rw [this, Nat.mod_self]
        rw [hcur]
        rw [haux]
        rw [Nat.zero_add]
  have hsecond : dispatch { slots := List.replicate n (cooledSlot 0), lastUsed := n - 1 }
      now (fun _ => true) =
      (.error .poolExhausted, 0,
        { slots := List.replicate n (cooledSlot 0), lastUsed := n - 1 }) := by
    have hstep : dispatchAux ((List.replicate n (cooledSlot 0)).length + 1)
        (List.replicate n (cooledSlot 0)) now (fun _ => true)
        (((n - 1) + 1) % (List.replicate n (cooledSlot 0)).length) 0 =
        (.error .poolExhausted, 0, List.replicate n (cooledSlot 0)) := by
      rw [List.length_replicate]
      show (match nextAvailable (List.replicate n (cooledSlot 0)) now
          (((n - 1) + 1) % n) with
        | none => ((Except.error DispatchError.poolExhausted : Except DispatchError Nat),
            0, List.replicate n (cooledSlot 0))
        | some i =>
            if (fun (_ : Nat) => true) 0 then
              dispatchAux n (markCooling (List.replicate n (cooledSlot 0)) i
                (now + cooldownWindow)) now (fun _ => true) (i + 1) (0 + 1)
            else ((.ok i : Except DispatchError Nat), 0 + 1,
              List.replicate n (cooledSlot 0))) = _
      rw [nextAvailable_all_cooled n _ now h]
    show (match dispatchAux ((List.replicate n (cooledSlot 0)).length + 1)
        (List.replicate n (cooledSlot 0)) now (fun _ => true)
        (((n - 1) + 1) % (List.replicate n (cooledSlot 0)).length) 0 with
      | (.ok i, count, slots) =>
          ((.ok i : Except DispatchError Nat), count,
            ({ slots := slots, lastUsed := i } : CredPool))
      | (.error e, count, slots) =>
          ((.error e : Except DispatchError Nat), count,
            ({ slots := slots, lastUsed := n - 1 } : CredPool))) = _
    rw [hstep]
  exact ⟨hfirst, by rw [hsecond], by rw [hsecond]⟩

/-- C3 amended-theorem witness: the 3-credential pool from the spec
scenario, probed before the cool-down expires. -/
theorem c3_witness :
    dispatch (freshPool 3) 0 (fun _ => true) =
      (.error .poolExhausted, 3,
        { slots := List.replicate 3 (cooledSlot 0), lastUsed := 2 }) ∧
    (dispatch { slots := List.replicate 3 (cooledSlot 0), lastUsed := 2 } 30
        (fun _ => true)).1 = .error .poolExhausted ∧
    (dispatch { slots := List.replicate 3 (cooledSlot 0), lastUsed := 2 } 30
        (fun _ => true)).2.1 = 0 :=
  c3_pool_exhaustion 3 30 (by decide)

/-- C10 witness: a `Progress` event carrying step 0, percent 0 and an empty
message leaves all three displayed fields of the initial page state as they
were. -/
theorem c10_witness :
    (pageReduce pageInit ⟨.progress, ⟨some 0, some 0, some "", none⟩⟩).currentStep =
      pageInit.currentStep ∧
    (pageReduce pageInit ⟨.progress, ⟨some 0, some 0, some "", none⟩⟩).progress =
      pageInit.progress ∧
    (pageReduce pageInit ⟨.progress, ⟨some 0, some 0, some "", none⟩⟩).statusMessage =
      pageInit.statusMessage :=
  ⟨(c10_progress_truthy_guards pageInit ⟨some 0, some 0, some "", none⟩).1 (Or.inl rfl),
   (c10_progress_truthy_guards pageInit ⟨some 0, some 0, some "", none⟩).2.1 (Or.inl rfl),
   (c10_progress_truthy_guards pageInit ⟨some 0, some 0, some "", none⟩).2.2.1 (Or.inl rfl)⟩

end ChunkSmith
